import Mathlib

/-!
Verification of the data-analyst-agent pipeline against its specification.

The JavaScript sources are shallowly embedded: JS numbers produced by the
statistical code are modelled exactly, with `ℚ` for finite values that stay
rational, an explicit `NaN`/`Infinity`, and a symbolic constructor for the
single irrational-producing operation (division by `Math.sqrt`).  External
collaborators (the chart raster encoder, network fetches, the database) are
abstracted as function parameters or `Except` inputs at the call boundary.
-/

/-- A JavaScript number as produced by the statistics code of this
repository, in exact arithmetic: `nan` is `NaN`; `inf true`/`inf false` are
`+Infinity`/`-Infinity`; `num q` is the finite rational `q`; `divSqrt a d`
is the exact real value `a / Real.sqrt d` (only built with `0 < d`,
`a ≠ 0`), kept symbolic because it is irrational in general. -/
inductive JsNum where
  | nan : JsNum
  | inf : Bool → JsNum
  | num : ℚ → JsNum
  | divSqrt : ℚ → ℚ → JsNum
deriving DecidableEq, Repr

/-- Models the JavaScript `isNaN` predicate on an exact number. -/
def JsNum.isNaN : JsNum → Bool
  | .nan => true
  | _ => false

/-- Models JavaScript division `a / b` of finite exact values: division by
zero gives `NaN` for `0 / 0` and a signed infinity otherwise. -/
def jsDivQ (a b : ℚ) : JsNum :=
  if b = 0 then (if a = 0 then JsNum.nan else JsNum.inf (decide (0 < a)))
  else JsNum.num (a / b)

/-- Models the JavaScript expression `a / Math.sqrt d` on finite exact
values: `Math.sqrt` of a negative is `NaN` and division by it is `NaN`;
`a / 0` is `NaN` or a signed infinity; otherwise the (possibly irrational)
value `a / √d` is kept symbolically. -/
def jsDivSqrt (a d : ℚ) : JsNum :=
  if d < 0 then JsNum.nan
  else if d = 0 then (if a = 0 then JsNum.nan else JsNum.inf (decide (0 < a)))
  else if a = 0 then JsNum.num 0
  else JsNum.divSqrt a d

/-- Computes `⌊a · √d⌋` exactly for `0 < d` (and `0` in the unused cases
`a = 0` or `d ≤ 0`), via the integer square root: for `0 < a` the value is
`√(a² d) = √(p·q)/q` where `a² d = p / q` in lowest terms, and
`⌊√(p·q)/q⌋ = ⌊⌊√(p·q)⌋/q⌋`; for `a < 0` it is `-⌈√(a² d)⌉`. -/
def floorMulSqrt (a d : ℚ) : ℤ :=
  if a = 0 ∨ d ≤ 0 then 0
  else
    let m : ℚ := a ^ 2 * d
    let p : ℕ := m.num.toNat
    let q : ℕ := m.den
    let s : ℕ := Nat.sqrt (p * q)
    if 0 < a then ((s / q : ℕ) : ℤ)
    else if q = 1 ∧ Nat.sqrt p * Nat.sqrt p = p then -((Nat.sqrt p : ℤ))
    else -((s / q : ℕ) : ℤ) - 1

/-- Models JavaScript `Math.round` on an exact number: `⌊x + 1/2⌋`
(JavaScript rounds halves toward `+∞`); `NaN` and infinities are kept.  On
the symbolic value `a/√d` it uses `⌊x + 1/2⌋ = (⌊2x⌋ + 1).fdiv 2` with
`2x = (2a/d)·√d`. -/
def jsRound : JsNum → JsNum
  | .nan => .nan
  | .inf b => .inf b
  | .num q => .num ((⌊q + 1 / 2⌋ : ℤ) : ℚ)
  | .divSqrt a d => .num (((floorMulSqrt (2 * a / d) d + 1).fdiv 2 : ℤ) : ℚ)

/-- Models multiplication of an exact JavaScript number by a positive
rational constant (used for the `* 1000` and `/ 1000` of the 3-decimal
rounding). -/
def jsMulPos (v : JsNum) (c : ℚ) : JsNum :=
  match v with
  | .nan => .nan
  | .inf b => .inf b
  | .num q => .num (q * c)
  | .divSqrt a d => .divSqrt (a * c) d

/-- Models the JavaScript idiom `Math.round(x * 1000) / 1000`. -/
def jsRound3 (v : JsNum) : JsNum :=
  jsMulPos (jsRound (jsMulPos v 1000)) (1 / 1000)

/-- Models JavaScript `Math.sqrt` on a finite exact value. -/
def jsSqrt (q : ℚ) : JsNum :=
  if q < 0 then JsNum.nan
  else if q = 0 then JsNum.num 0
  else JsNum.divSqrt q q

/-- `∑ xᵢ · yᵢ` over paired elements: models the JavaScript pattern
`x.reduce((sum, xi, i) => sum + xi * y[i], 0)` when `y` is at least as long
as `x`. -/
def sumProds (x y : List ℚ) : ℚ := ((x.zip y).map fun p => p.1 * p.2).sum

/-- `∑ xᵢ²`: models `x.reduce((sum, xi) => sum + xi * xi, 0)`. -/
def sumSq (x : List ℚ) : ℚ := (x.map fun a => a * a).sum

/-- The product of the two variance terms under the square root in the
correlation denominator: `(n·Σx² − (Σx)²) · (n·Σy² − (Σy)²)`. -/
def pearsonDenomProd (x y : List ℚ) : ℚ :=
  let n : ℚ := x.length
  (n * sumSq x - x.sum * x.sum) * (n * sumSq y - y.sum * y.sum)

/-- The correlation numerator `n·Σxy − Σx·Σy`. -/
def pearsonNum (x y : List ℚ) : ℚ :=
  let n : ℚ := x.length
  n * sumProds x y - x.sum * y.sum

namespace VisualizationService

/-- Embeds `VisualizationService.pearsonCorrelation`
(src/services/visualizationService.js lines 370-384): returns `0` on a
length mismatch, computes the Pearson coefficient, and normalizes a `NaN`
result to `0`. -/
def pearsonCorrelation (x y : List ℚ) : JsNum :=
  if x.length ≠ y.length then JsNum.num 0
  else
    let n : ℚ := x.length
    let sumX := x.sum
    let sumY := y.sum
    let sumXY := sumProds x y
    let sumXX := sumSq x
    let sumYY := sumSq y
    let c := jsDivSqrt (n * sumXY - sumX * sumY)
      ((n * sumXX - sumX * sumX) * (n * sumYY - sumY * sumY))
    if c.isNaN then JsNum.num 0 else c

/-- Models the JavaScript expression `(sumY - slope * sumX) / n` where
`slope` may be `NaN` or infinite: `NaN` propagates; `±∞ · 0` is `NaN`;
otherwise subtracting an infinity flips its sign and dividing by the
nonnegative count `n` keeps it.  The `divSqrt` case cannot arise for a
slope produced by `jsDivQ`. -/
def jsInterceptOf (slope : JsNum) (sumX sumY n : ℚ) : JsNum :=
  match slope with
  | .num s => jsDivQ (sumY - s * sumX) n
  | .nan => .nan
  | .inf b => if sumX = 0 then .nan else .inf (!(b == decide (0 < sumX)))
  | .divSqrt _ _ => .nan

/-- Embeds `VisualizationService.calculateRegression`
(src/services/visualizationService.js lines 184-195): ordinary least
squares with NO normalization of `NaN`; returns the `(slope, intercept)`
pair. -/
def calculateRegression (data : List (ℚ × ℚ)) : JsNum × JsNum :=
  let n : ℚ := data.length
  let sumX := (data.map fun p => p.1).sum
  let sumY := (data.map fun p => p.2).sum
  let sumXY := (data.map fun p => p.1 * p.2).sum
  let sumXX := (data.map fun p => p.1 * p.1).sum
  let slope := jsDivQ (n * sumXY - sumX * sumY) (n * sumXX - sumX * sumX)
  (slope, jsInterceptOf slope sumX sumY n)

/-- The three fixed resolutions the scatter-plot renderer can try, in
order: the constructor resolution 800×600, then 600×400, then 400×300. -/
def resolutionTiers : List (ℕ × ℕ) := [(800, 600), (600, 400), (400, 300)]

/-- Embeds the size-fallback logic of `VisualizationService.createScatterPlot`
(src/services/visualizationService.js lines 141-169), abstracting
`renderToBuffer` as a function `render` from resolution to encoded byte
length (the byte budget `maxImageSize` is 100000 in the constructor).
Returns the byte length of the final image together with the list of
resolutions rendered, in order. -/
def createScatterPlotBytes (render : ℕ × ℕ → ℕ) (maxImageSize : ℕ) :
    ℕ × List (ℕ × ℕ) :=
  let b1 := render (800, 600)
  if maxImageSize < b1 then
    let b2 := render (600, 400)
    if maxImageSize < b2 then (render (400, 300), resolutionTiers)
    else (b2, [(800, 600), (600, 400)])
  else (b1, [(800, 600)])

end VisualizationService

namespace DuckDBHandler

/-- Embeds `DuckDBHandler.calculateLinearRegressionSlope`
(src/services/visualizationService.js lines 629-642): returns `0` on a
length mismatch or fewer than 2 points, and normalizes a `NaN` slope to
`0`. -/
def calculateLinearRegressionSlope (xValues yValues : List ℚ) : JsNum :=
  if xValues.length ≠ yValues.length ∨ xValues.length < 2 then JsNum.num 0
  else
    let n : ℚ := xValues.length
    let sumX := xValues.sum
    let sumY := yValues.sum
    let sumXY := sumProds xValues yValues
    let sumXX := sumSq xValues
    let slope := jsDivQ (n * sumXY - sumX * sumY) (n * sumXX - sumX * sumX)
    if slope.isNaN then JsNum.num 0 else slope

end DuckDBHandler

/-- Whether the character list `s` starts with the pattern `p`. -/
def startsWithL : List Char → List Char → Bool
  | _, [] => true
  | [], _ :: _ => false
  | c :: cs, p :: ps => c == p && startsWithL cs ps

/-- Models the JavaScript `String.prototype.includes` test on character
lists: whether the pattern occurs contiguously anywhere in `s`. -/
def containsL : List Char → List Char → Bool
  | [], pat => startsWithL [] pat
  | c :: t, pat => startsWithL (c :: t) pat || containsL t pat

/-- The characters of `s` lower-cased: models `s.toLowerCase()` for the
ASCII strings this repository matches against. -/
def lcChars (s : String) : List Char := s.data.map Char.toLower

namespace LLMService

/-- The structured task descriptor built by the classifier (the JSON shape
of src/unnamed/part_001). -/
structure TaskAnalysis where
  requiresWikipedia : Bool
  requiresCourtData : Bool
  requiresCSV : Bool
  dataSource : String
  analysisType : String
  expectedOutputFormat : String
  questions : List String
  visualizationNeeded : Bool
  statisticalOperations : List String
deriving DecidableEq, Repr

/-- Embeds `LLMService.fallbackAnalysis` (src/unnamed/part_001 lines
77-120), the deterministic keyword strategy.  The source initializes the
descriptor and then overwrites fields in sequence, so the final
`analysisType` is decided by the LAST matching keyword check
(count over regression over correlation), `statisticalOperations` collects
the matches in check order, and the base64 check can only turn
`visualizationNeeded` on. -/
def fallbackAnalysis (taskDescription : String) : TaskAnalysis :=
  let task := lcChars taskDescription
  let requiresWikipedia := containsL task "wikipedia".data ||
    containsL task "highest-grossing".data || containsL task "films".data
  let requiresCourtData := containsL task "court".data ||
    containsL task "judgment".data || containsL task "indian high court".data
  let requiresCSV := containsL task "csv".data || containsL task "upload".data
  let hasCorrelation := containsL task "correlation".data
  let hasRegression := containsL task "regression".data
  let hasCount := containsL task "how many".data || containsL task "count".data
  let hasBase64 := containsL task "base64".data || containsL task "data:image".data
  { requiresWikipedia := requiresWikipedia
    requiresCourtData := requiresCourtData
    requiresCSV := requiresCSV
    dataSource := if requiresWikipedia then "wikipedia"
      else if requiresCourtData then "court_data"
      else if requiresCSV then "csv" else "unknown"
    analysisType := if hasCount then "count"
      else if hasRegression then "regression"
      else if hasCorrelation then "correlation" else "statistical_summary"
    expectedOutputFormat := if hasBase64 then "base64_image" else "json_array"
    questions := []
    visualizationNeeded := (containsL task "plot".data || containsL task "chart".data ||
      containsL task "scatter".data || containsL task "graph".data) || hasBase64
    statisticalOperations := (if hasCorrelation then ["correlation"] else []) ++
      (if hasRegression then ["regression"] else []) ++
      (if hasCount then ["count"] else []) }

end LLMService

/-- A scraped table row: the ordered header/cell pairs of one `<tr>`, in
column order (JavaScript object-key insertion order). -/
abbrev Row := List (String × String)

namespace WikipediaHandler

/-- One cleaned film record as pushed by `cleanFilmsData` (lines
239-245). -/
structure FilmRecord where
  title : String
  revenue : ℕ
  year : Option ℕ
  rank : ℕ
  peak : ℕ
deriving DecidableEq, Repr

/-- The value of the first key of the row satisfying `p`, in insertion
order: models `Object.keys(row).filter(p)[0]` followed by indexing. -/
def findKeyVal (row : Row) (p : String → Bool) : Option String :=
  (row.find? fun kv => p kv.1).map fun kv => kv.2

/-- The decimal number named by a list of digit characters (the effect of
`parseInt` on an all-digits string). -/
def parseDigits (l : List Char) : ℕ :=
  l.foldl (fun a c => 10 * a + (c.toNat - 48)) 0

/-- The first maximal run of characters satisfying `p` (the leftmost,
greedy match of a character-class `+` regex). -/
def firstRun (p : Char → Bool) : List Char → Option (List Char)
  | [] => none
  | c :: cs => if p c then some (c :: cs.takeWhile p) else firstRun p cs

/-- Membership in the character class `[\d,]`. -/
def isDigitOrComma (c : Char) : Bool := c.isDigit || c == ','

/-- Models `str.match(/[\x5cd,]+/)` followed by `.replace(/,/g, ...)` and
`parseInt`: the first digit/comma run with commas stripped, read as a
number.  A run of only commas makes `parseInt` return `NaN`, which the
caller treats exactly like the no-match `null`, so both are `none`. -/
def extractDigitCommaNumber (s : String) : Option ℕ :=
  match firstRun isDigitOrComma s.data with
  | none => none
  | some run =>
    let digits := run.filter fun c => c.isDigit
    if digits.isEmpty then none else some (parseDigits digits)

/-- Models `str.match(/\x5cd+/)` followed by `parseInt`: the first digit
run, read as a number. -/
def extractDigitNumber (s : String) : Option ℕ :=
  (firstRun Char.isDigit s.data).map parseDigits

/-- Models `str.match(/\x5cd{4}/)` followed by `parseInt`: the first four
consecutive digits. -/
def firstFourDigits : List Char → Option ℕ
  | [] => none
  | c :: cs =>
    if c.isDigit && ((cs.take 3).length == 3 && (cs.take 3).all Char.isDigit) then
      some (parseDigits (c :: cs.take 3))
    else firstFourDigits cs

/-- The revenue-column keyword test of lines 168-173. -/
def keyHitRevenue (k : String) : Bool :=
  containsL (lcChars k) "worldwide".data || containsL (lcChars k) "gross".data ||
  containsL (lcChars k) "box office".data || containsL (lcChars k) "revenue".data

/-- The year-column keyword test of lines 185-188. -/
def keyHitYear (k : String) : Bool :=
  containsL (lcChars k) "year".data || containsL (lcChars k) "released".data

/-- The title-column test of lines 199-204: a keyword match, or being the
row's first column. -/
def keyHitTitle (firstKey : String) (k : String) : Bool :=
  containsL (lcChars k) "title".data || containsL (lcChars k) "film".data ||
  containsL (lcChars k) "movie".data || k == firstKey

/-- The rank-column keyword test of lines 211-214. -/
def keyHitRank (k : String) : Bool :=
  containsL (lcChars k) "rank".data || containsL (lcChars k) "position".data

/-- The peak-column keyword test of lines 225-227. -/
def keyHitPeak (k : String) : Bool := containsL (lcChars k) "peak".data

/-- Revenue extraction for one row (lines 168-182). -/
def extractRevenue (row : Row) : Option ℕ :=
  (findKeyVal row keyHitRevenue).bind extractDigitCommaNumber

/-- Year extraction for one row (lines 185-196). -/
def extractYear (row : Row) : Option ℕ :=
  (findKeyVal row keyHitYear).bind fun s => firstFourDigits s.data

/-- Title extraction for one row (lines 199-208); for a nonempty row the
first column always matches itself, so this is the first column's value. -/
def extractTitle (row : Row) : Option String :=
  findKeyVal row (keyHitTitle (((row.head?).map fun kv => kv.1).getD ""))

/-- Rank extraction for one row (lines 211-222). -/
def extractRank (row : Row) : Option ℕ :=
  (findKeyVal row keyHitRank).bind extractDigitNumber

/-- Peak extraction for one row (lines 225-235). -/
def extractPeak (row : Row) : Option ℕ :=
  (findKeyVal row keyHitPeak).bind extractDigitNumber

/-- JavaScript truthiness of an extracted number: `null` (and `NaN`,
merged into `none` by the extractors) and `0` are falsy. -/
def truthyNum (o : Option ℕ) : Bool :=
  match o with
  | some n => n != 0
  | none => false

/-- JavaScript truthiness of an extracted string: `null` and the empty
string are falsy. -/
def truthyStr (o : Option String) : Bool :=
  match o with
  | some s => s != ""
  | none => false

/-- The essential-field test of line 238, `revenueValue && titleValue`,
under JavaScript truthiness: the revenue must extract to a nonzero number
and the title must be a nonempty string. -/
def essentialTruthy (row : Row) : Bool :=
  truthyNum (extractRevenue row) && truthyStr (extractTitle row)

/-- Embeds one iteration of the row loop of `cleanFilmsData`
(src/handlers/wikipediaHandler.js lines 158-246): `cleanedLen` is the
number of records retained so far (`cleaned.length`).  A record is pushed
only when `revenueValue && titleValue` is truthy; `rank` falls back to
`cleaned.length + 1` and `peak` to `peakValue || rankValue ||
cleaned.length + 1`. -/
def mkFilmRecord (cleanedLen : ℕ) (row : Row) : Option FilmRecord :=
  let revenueValue := extractRevenue row
  let yearValue := extractYear row
  let titleValue := extractTitle row
  let rankValue := extractRank row
  let peakValue := extractPeak row
  if truthyNum revenueValue && truthyStr titleValue then
    some { title := titleValue.getD ""
           revenue := revenueValue.getD 0
           year := yearValue
           rank := if truthyNum rankValue then rankValue.getD 0 else cleanedLen + 1
           peak := if truthyNum peakValue then peakValue.getD 0
             else if truthyNum rankValue then rankValue.getD 0 else cleanedLen + 1 }
  else none

/-- One step of the `cleanFilmsData` loop: append the row's record to
`cleaned` when it is retained, else leave `cleaned` unchanged. -/
def cleanStep (cleaned : List FilmRecord) (row : Row) : List FilmRecord :=
  match mkFilmRecord cleaned.length row with
  | some r => cleaned ++ [r]
  | none => cleaned

/-- Embeds `WikipediaHandler.cleanFilmsData` (lines 155-255): the rows are
processed in order, each retained record being appended to `cleaned`. -/
def cleanFilmsData (rows : List Row) : List FilmRecord :=
  rows.foldl cleanStep []

/-- The year of a record with JavaScript number coercion of `null` in the
comparison position (`null < n` compares as `0 < n`). -/
def yearVal (r : FilmRecord) : ℕ := r.year.getD 0

/-- JavaScript truthiness of the `year` field. -/
def truthyYear (r : FilmRecord) : Bool :=
  match r.year with
  | some y => y != 0
  | none => false

/-- The reducer of `findEarliest1_5BillionFilm` (line 275-277):
`(prev.year < current.year) ? prev : current` — note the newcomer wins on
a tie. -/
def pickEarlier (prev cur : FilmRecord) : FilmRecord :=
  if yearVal prev < yearVal cur then prev else cur

/-- The filter of `findEarliest1_5BillionFilm` (lines 266-269): revenue at
least 1.5bn and a truthy year. -/
def overOneAndAHalfBn (m : FilmRecord) : Bool :=
  decide (1500000000 ≤ m.revenue) && truthyYear m

/-- Embeds `WikipediaHandler.findEarliest1_5BillionFilm` (lines 265-280):
filters with `overOneAndAHalfBn`, then reduces with `pickEarlier`
(JavaScript `reduce` with no seed: the head is the seed), and formats the
winner as `title (year)`. -/
def findEarliest1_5BillionFilm (data : List FilmRecord) : String :=
  let over := data.filter overOneAndAHalfBn
  match over with
  | [] => "No films found over $1.5bn"
  | h :: t =>
    let e := t.foldl pickEarlier h
    e.title ++ " (" ++ toString (yearVal e) ++ ")"

/-- Embeds `WikipediaHandler.calculateRankPeakCorrelation` (lines
282-304): filters to records with truthy rank and peak, returns `0` for
fewer than 2, and otherwise computes the Pearson coefficient and rounds it
to 3 decimals — with NO `isNaN` normalization. -/
def calculateRankPeakCorrelation (data : List FilmRecord) : JsNum :=
  let validData := data.filter fun d => (d.rank != 0) && (d.peak != 0)
  if validData.length < 2 then JsNum.num 0
  else
    let ranks : List ℚ := validData.map fun d => (d.rank : ℚ)
    let peaks : List ℚ := validData.map fun d => (d.peak : ℚ)
    let n : ℚ := ranks.length
    let sumX := ranks.sum
    let sumY := peaks.sum
    let sumXY := sumProds ranks peaks
    let sumXX := sumSq ranks
    let sumYY := sumSq peaks
    jsRound3 (jsDivSqrt (n * sumXY - sumX * sumY)
      ((n * sumXX - sumX * sumX) * (n * sumYY - sumY * sumY)))

/-- Embeds the error boundary of `WikipediaHandler.processWikipediaTask`
(lines 11-36): the inner pipeline (URL choice, network scrape, analysis)
is abstracted as its `Except`-valued outcome.  An inner error is caught,
wrapped, and RE-THROWN to the caller — not replaced by fallback data. -/
def processWikipediaTask {α : Type} (inner : Except String α) : Except String α :=
  match inner with
  | .ok v => .ok v
  | .error msg => .error ("Failed to process Wikipedia data: " ++ msg)

end WikipediaHandler

/-- A JSON-like response value, as assembled by the court-data handler. -/
inductive JVal where
  | str : String → JVal
  | numb : ℚ → JVal
  | obj : List (String × JVal) → JVal

namespace DuckDBHandler

/-- Embeds `DuckDBHandler.getSampleCourtData`
(src/services/visualizationService.js lines 672-699): the deterministic
sample response chosen by keyword tests on the lower-cased task text. -/
def getSampleCourtData (taskDescription : String) (visualizationNeeded : Bool) : JVal :=
  let t := lcChars taskDescription
  if containsL t "disposed the most cases".data then JVal.str "Delhi High Court"
  else if containsL t "regression slope".data then
    JVal.obj ([("regression_slope_court_33_10", JVal.numb (-(234 / 100 : ℚ)))] ++
      (if visualizationNeeded then
        [("delay_trend_plot", JVal.str "data:image/png;base64,iVBORw0KGgoAAAANSUhEUgAAAAEAAAABCAYAAAAfFcSJAAAADUlEQVR42mP8/5+hHgAHggJ/PchI7wAAAABJRU5ErkJggg=="),
         ("note", JVal.str "Sample visualization - external service unavailable")]
       else []))
  else JVal.obj
    [("Which high court disposed the most cases from 2019 - 2022?",
        JVal.str "Delhi High Court"),
     ("What\x27s the regression slope of the date_of_registration - decision_date by year in the court=33_10?",
        JVal.numb (-(234 / 100 : ℚ))),
     ("Plot the year and # of days of delay from the above question as a scatterplot with a regression line. Encode as a base64 data URI under 100,000 characters",
        JVal.str "data:image/png;base64,sample_placeholder"),
     ("note", JVal.str "Sample data provided - external database unavailable")]

/-- Embeds the error boundary of `DuckDBHandler.processCourtDataTask`
(lines 432-477): the body (connection, queries, result assembly) is
abstracted as its `Except`-valued outcome.  Any error is caught and
replaced by the deterministic sample response — never re-thrown. -/
def processCourtDataTask (taskDescription : String) (visualizationNeeded : Bool)
    (body : Except String JVal) : JVal :=
  match body with
  | .ok v => v
  | .error _ => getSampleCourtData taskDescription visualizationNeeded

end DuckDBHandler

namespace CSVHandler

/-- The per-column statistics record built by `calculateBasicStats`
(src/handlers/csvhandler lines 144-151). -/
structure ColumnStats where
  count : ℕ
  mean : ℚ
  median : ℚ
  min : ℚ
  max : ℚ
  std_dev : JsNum
deriving DecidableEq, Repr

/-- Embeds `CSVHandler.calculateStdDev` (lines 158-163): the population
standard deviation (divisor `n`, not `n - 1`). -/
def calculateStdDev (values : List ℚ) : JsNum :=
  let mean := values.sum / (values.length : ℚ)
  let avgSquareDiff := ((values.map fun v => (v - mean) ^ 2).sum) / (values.length : ℚ)
  jsSqrt avgSquareDiff

/-- Models `Math.min(...values)` for a nonempty list (the empty case is
unreachable behind the source's length guard). -/
def jsMinList (l : List ℚ) : ℚ :=
  match l with
  | [] => 0
  | h :: t => t.foldl min h

/-- Models `Math.max(...values)` for a nonempty list. -/
def jsMaxList (l : List ℚ) : ℚ :=
  match l with
  | [] => 0
  | h :: t => t.foldl max h

/-- Embeds the per-column body of `CSVHandler.calculateBasicStats` (lines
141-151): the column's numeric values are sorted ascending in place by the
JavaScript comparator `(a, b) => a - b`, and every statistic is then read
off the sorted list; `none` when the column has no numeric values (the
source's `values.length > 0` guard). -/
def columnStats (values : List ℚ) : Option ColumnStats :=
  if values.length = 0 then none
  else
    let sorted := List.insertionSort (· ≤ ·) values
    some { count := sorted.length
           mean := sorted.sum / (sorted.length : ℚ)
           median := sorted.getD (sorted.length / 2) 0
           min := jsMinList sorted
           max := jsMaxList sorted
           std_dev := calculateStdDev sorted }

/-- Embeds `CSVHandler.pearsonCorrelation` (src/handlers/csvhandler lines
194-206): identical to the visualization-service version except there is
no length guard.  When `y` is shorter than `x` the indexed reduce reads
past the end of `y`, making `sumXY` (hence the correlation) `NaN`, which
the final `isNaN` check turns into `0`. -/
def pearsonCorrelation (x y : List ℚ) : JsNum :=
  if y.length < x.length then JsNum.num 0
  else
    let n : ℚ := x.length
    let sumX := x.sum
    let sumY := y.sum
    let sumXY := sumProds x y
    let sumXX := sumSq x
    let sumYY := sumSq y
    let c := jsDivSqrt (n * sumXY - sumX * sumY)
      ((n * sumXX - sumX * sumX) * (n * sumYY - sumY * sumY))
    if c.isNaN then JsNum.num 0 else c

end CSVHandler

/-! ### Substring reflection -/

theorem startsWithL_iff (s p : List Char) :
    startsWithL s p = true ↔ ∃ v, s = p ++ v := by
  induction p generalizing s with
  | nil => simp [startsWithL]
  | cons a ps ih =>
    cases s with
    | nil => simp [startsWithL]
    | cons c cs =>
      simp only [startsWithL, Bool.and_eq_true, beq_iff_eq, ih, List.cons_append,
        List.cons.injEq]
      constructor
      · rintro ⟨rfl, v, rfl⟩
        exact ⟨v, rfl, rfl⟩
      · rintro ⟨v, rfl, rfl⟩
        exact ⟨rfl, v, rfl⟩

theorem containsL_iff (s p : List Char) :
    containsL s p = true ↔ ∃ u v, s = u ++ (p ++ v) := by
  induction s with
  | nil =>
    rw [show containsL [] p = startsWithL [] p from rfl, startsWithL_iff]
    constructor
    · rintro ⟨v, hv⟩
      exact ⟨[], v, by simpa using hv⟩
    · rintro ⟨u, v, huv⟩
      rcases List.append_eq_nil.1 huv.symm with ⟨rfl, h2⟩
      exact ⟨v, by simpa using huv⟩
  | cons c t ih =>
    simp only [containsL, Bool.or_eq_true, startsWithL_iff, ih]
    constructor
    · rintro (⟨v, hv⟩ | ⟨u, v, huv⟩)
      · exact ⟨[], v, by simpa using hv⟩
      · exact ⟨c :: u, v, by simp [huv]⟩
    · rintro ⟨u, v, huv⟩
      cases u with
      | nil => exact Or.inl ⟨v, by simpa using huv⟩
      | cons a u2 =>
        rw [List.cons_append] at huv
        rcases List.cons.injEq .. ▸ huv with ⟨rfl, h2⟩
        exact Or.inr ⟨u2, v, h2⟩

theorem containsL_append_split (s a b : List Char) (h : containsL s (a ++ b) = true) :
    containsL s a = true ∧ containsL s b = true := by
  obtain ⟨u, v, rfl⟩ := (containsL_iff s (a ++ b)).1 h
  constructor
  · exact (containsL_iff _ a).2 ⟨u, b ++ v, by simp⟩
  · exact (containsL_iff _ b).2 ⟨u ++ a, v, by simp⟩

/-! ### Claim C8 — deterministic classifier keywords -/

/-- Claim C8 (amended): on task text containing (case-insensitively)
"highest-grossing films", "correlation" and "scatterplot", the
deterministic strategy yields dataSource "wikipedia" and
visualizationNeeded true; it yields analysisType "correlation" provided
the text does not also contain "regression", "how many" or "count", whose
later checks overwrite the field. -/
theorem claim_C8 (s : String)
    (h1 : containsL (lcChars s) "highest-grossing films".data = true)
    (h2 : containsL (lcChars s) "correlation".data = true)
    (h3 : containsL (lcChars s) "scatterplot".data = true)
    (h4 : containsL (lcChars s) "regression".data = false)
    (h5 : containsL (lcChars s) "how many".data = false)
    (h6 : containsL (lcChars s) "count".data = false) :
    (LLMService.fallbackAnalysis s).dataSource = "wikipedia" ∧
    (LLMService.fallbackAnalysis s).analysisType = "correlation" ∧
    (LLMService.fallbackAnalysis s).visualizationNeeded = true := by
  have hsplit1 : ("highest-grossing films".data : List Char) =
      "highest-grossing".data ++ " films".data := by decide
  have hsplit2 : ("scatterplot".data : List Char) = "scatter".data ++ "plot".data := by
    decide
  have hhg : containsL (lcChars s) "highest-grossing".data = true :=
    (containsL_append_split _ _ _ (hsplit1 ▸ h1)).1
  have hscatter : containsL (lcChars s) "scatter".data = true :=
    (containsL_append_split _ _ _ (hsplit2 ▸ h3)).1
  refine ⟨?_, ?_, ?_⟩ <;>
    simp [LLMService.fallbackAnalysis, hhg, hscatter, h2, h4, h5, h6]

/-- Witness for claim C8 at a concrete task text containing the three
keyword phrases and none of the overriding ones. -/
theorem claim_C8_witness :
    containsL (lcChars "Highest-Grossing Films: correlation, scatterplot")
      "highest-grossing films".data = true ∧
    (LLMService.fallbackAnalysis
      "Highest-Grossing Films: correlation, scatterplot").dataSource = "wikipedia" ∧
    (LLMService.fallbackAnalysis
      "Highest-Grossing Films: correlation, scatterplot").analysisType = "correlation" ∧
    (LLMService.fallbackAnalysis
      "Highest-Grossing Films: correlation, scatterplot").visualizationNeeded = true := by
  have h := claim_C8 "Highest-Grossing Films: correlation, scatterplot"
    (by decide) (by decide) (by decide) (by decide) (by decide) (by decide)
  exact ⟨by decide, h.1, h.2.1, h.2.2⟩

/-- Counterexample to claim C8 as stated: a task text containing
"highest-grossing films", "correlation" and "scatterplot" but ALSO
"regression"; the later regression check overwrites `analysisType`, so the
strategy does not yield "correlation". -/
theorem claim_C8_counterexample :
    containsL (lcChars "highest-grossing films correlation scatterplot regression")
      "highest-grossing films".data = true ∧
    containsL (lcChars "highest-grossing films correlation scatterplot regression")
      "correlation".data = true ∧
    containsL (lcChars "highest-grossing films correlation scatterplot regression")
      "scatterplot".data = true ∧
    (LLMService.fallbackAnalysis
      "highest-grossing films correlation scatterplot regression").analysisType =
      "regression" ∧
    ("regression" : String) ≠ "correlation" := by
  refine ⟨by decide, by decide, by decide, by decide, by decide⟩

/-! ### Claim C4 — error boundaries of the domain-specific paths -/

/-- Claim C4 (amended): an error in the court-data path is caught at the
component boundary and replaced by the deterministic sample response
(independent of the error), and a successful body is passed through; the
Wikipedia path instead wraps an inner error and re-throws it to the
caller. -/
theorem claim_C4 :
    (∀ (td : String) (viz : Bool) (e : String),
      DuckDBHandler.processCourtDataTask td viz (Except.error e) =
        DuckDBHandler.getSampleCourtData td viz) ∧
    (∀ (td : String) (viz : Bool) (v : JVal),
      DuckDBHandler.processCourtDataTask td viz (Except.ok v) = v) ∧
    (∀ (α : Type) (msg : String),
      WikipediaHandler.processWikipediaTask (α := α) (Except.error msg) =
        Except.error ("Failed to process Wikipedia data: " ++ msg)) :=
  ⟨fun _ _ _ => rfl, fun _ _ _ => rfl, fun _ _ => rfl⟩

/-- Counterexample to claim C4 as stated: a concrete error in the
Wikipedia path is re-thrown (wrapped) to the caller as a failure, not
replaced by a sample value. -/
theorem claim_C4_counterexample :
    WikipediaHandler.processWikipediaTask
        (Except.error "network failure" : Except String (List String)) =
      Except.error "Failed to process Wikipedia data: network failure" := rfl

/-! ### Claim C3 — renderer resolution tiers and byte budget -/

/-- Claim C3 (amended): the renderer tries the fixed tiers 800×600,
600×400, 400×300 in order, re-rendering only while the encoded byte length
exceeds the budget; the attempted list is a nonempty prefix of the tier
list, every attempt before the last was over budget, the returned bytes
are the last attempt's render, and the result exceeds the budget only when
even the minimal 400×300 render does (that oversized render is then
returned as-is). -/
theorem claim_C3 (render : ℕ × ℕ → ℕ) (budget : ℕ) :
    (∃ k, 1 ≤ k ∧ k ≤ 3 ∧
      (VisualizationService.createScatterPlotBytes render budget).2 =
        VisualizationService.resolutionTiers.take k) ∧
    (∀ i, i + 1 < (VisualizationService.createScatterPlotBytes render budget).2.length →
      budget < render
        ((VisualizationService.createScatterPlotBytes render budget).2.getD i (0, 0))) ∧
    (VisualizationService.createScatterPlotBytes render budget).1 =
      render ((VisualizationService.createScatterPlotBytes render budget).2.getLastD (0, 0)) ∧
    (budget < (VisualizationService.createScatterPlotBytes render budget).1 →
      (VisualizationService.createScatterPlotBytes render budget).2 =
        VisualizationService.resolutionTiers ∧
      (VisualizationService.createScatterPlotBytes render budget).1 = render (400, 300)) := by
  by_cases hb1 : budget < render (800, 600)
  · by_cases hb2 : budget < render (600, 400)
    · have hr : VisualizationService.createScatterPlotBytes render budget =
          (render (400, 300), [(800, 600), (600, 400), (400, 300)]) := by
        simp [VisualizationService.createScatterPlotBytes,
          VisualizationService.resolutionTiers, hb1, hb2]
      rw [hr]
      refine ⟨⟨3, by omega, by omega, by simp [VisualizationService.resolutionTiers]⟩,
        ?_, by simp [List.getLastD], fun _ => ⟨by simp [VisualizationService.resolutionTiers], rfl⟩⟩
      intro i hi
      simp only [List.length_cons, List.length_nil] at hi
      rcases i with _ | _ | i
      · simpa [List.getD] using hb1
      · simpa [List.getD] using hb2
      · omega
    · have hr : VisualizationService.createScatterPlotBytes render budget =
          (render (600, 400), [(800, 600), (600, 400)]) := by
        simp [VisualizationService.createScatterPlotBytes,
          VisualizationService.resolutionTiers, hb1, hb2]
      rw [hr]
      refine ⟨⟨2, by omega, by omega, by simp [VisualizationService.resolutionTiers]⟩,
        ?_, by simp [List.getLastD], fun h => absurd h hb2⟩
      intro i hi
      simp only [List.length_cons, List.length_nil] at hi
      rcases i with _ | i
      · simpa [List.getD] using hb1
      · omega
  · have hr : VisualizationService.createScatterPlotBytes render budget =
        (render (800, 600), [(800, 600)]) := by
      simp [VisualizationService.createScatterPlotBytes,
        VisualizationService.resolutionTiers, hb1]
    rw [hr]
    refine ⟨⟨1, by omega, by omega, by simp [VisualizationService.resolutionTiers]⟩,
      ?_, by simp [List.getLastD], fun h => absurd h hb1⟩
    intro i hi
    simp only [List.length_cons, List.length_nil] at hi
    omega

/-- Witness for claim C3 at a concrete renderer whose 800×600 output is
over the 100000-byte budget but whose 600×400 output fits: exactly the
first two tiers are attempted and the second one's bytes are returned. -/
theorem claim_C3_witness :
    (VisualizationService.createScatterPlotBytes
        (fun r => if r = (800, 600) then 150000 else 60000) 100000).2 =
      [(800, 600), (600, 400)] ∧
    (VisualizationService.createScatterPlotBytes
        (fun r => if r = (800, 600) then 150000 else 60000) 100000).1 = 60000 := by
  have h := claim_C3 (fun r => if r = (800, 600) then 150000 else 60000) 100000
  obtain ⟨⟨k, hk1, hk3, htake⟩, hover, hlast, hexceed⟩ := h
  exact ⟨by decide, by decide⟩

/-- Counterexample to claim C3 as stated: with a renderer producing
200000 bytes at every resolution, the returned image bytes are 200000,
exceeding the 100000-byte budget. -/
theorem claim_C3_counterexample :
    (VisualizationService.createScatterPlotBytes (fun _ => 200000) 100000).1 = 200000 ∧
    100000 < (VisualizationService.createScatterPlotBytes (fun _ => 200000) 100000).1 := by
  refine ⟨by decide, by decide⟩

/-! ### List sums as indexed sums -/

theorem list_sum_eq_range_getD (x : List ℚ) :
    x.sum = ∑ i in Finset.range x.length, x.getD i 0 := by
  induction x with
  | nil => simp
  | cons a t ih =>
    rw [List.sum_cons, List.length_cons, Finset.sum_range_succ']
    simp [List.getD_cons_succ, List.getD_cons_zero, ih, add_comm]

theorem sumSq_eq_range_getD (x : List ℚ) :
    sumSq x = ∑ i in Finset.range x.length, x.getD i 0 * x.getD i 0 := by
  induction x with
  | nil => simp [sumSq]
  | cons a t ih =>
    rw [show sumSq (a :: t) = a * a + sumSq t from by simp [sumSq], List.length_cons,
      Finset.sum_range_succ']
    simp [List.getD_cons_succ, List.getD_cons_zero, ih, add_comm]

theorem sumProds_eq_range_getD (x y : List ℚ) (h : x.length ≤ y.length) :
    sumProds x y = ∑ i in Finset.range x.length, x.getD i 0 * y.getD i 0 := by
  induction x generalizing y with
  | nil => simp [sumProds]
  | cons a t ih =>
    cases y with
    | nil => simp at h
    | cons b u =>
      rw [show sumProds (a :: t) (b :: u) = a * b + sumProds t u from by simp [sumProds],
        List.length_cons, Finset.sum_range_succ']
      have ht := ih u (by simpa using h)
      simp [List.getD_cons_succ, List.getD_cons_zero, ht, add_comm]

/-! ### A zero variance term forces a zero covariance term -/

theorem covar_zero_of_var_zero (S : Finset ℕ) (f g : ℕ → ℚ)
    (hvar : (S.card : ℚ) * (∑ i in S, f i * f i) -
      (∑ i in S, f i) * (∑ i in S, f i) = 0) :
    (S.card : ℚ) * (∑ i in S, f i * g i) -
      (∑ i in S, f i) * (∑ i in S, g i) = 0 := by
  rcases S.eq_empty_or_nonempty with rfl | hS
  · simp
  · have hn : (0 : ℚ) < S.card := by exact_mod_cast Finset.card_pos.2 hS
    have key : ∑ i in S, (f i - (∑ j in S, f j) / S.card) ^ 2 = 0 := by
      have expand : ∑ i in S, (f i - (∑ j in S, f j) / S.card) ^ 2 =
          (∑ i in S, f i * f i) -
            2 * ((∑ j in S, f j) / S.card) * (∑ i in S, f i) +
            (S.card : ℚ) * ((∑ j in S, f j) / S.card) ^ 2 := by
        have hcong : ∀ i ∈ S, (f i - (∑ j in S, f j) / S.card) ^ 2 =
            f i * f i - 2 * ((∑ j in S, f j) / S.card) * f i +
              ((∑ j in S, f j) / S.card) ^ 2 := fun i _ => by ring
        rw [Finset.sum_congr rfl hcong, Finset.sum_add_distrib, Finset.sum_sub_distrib,
          ← Finset.mul_sum, Finset.sum_const, nsmul_eq_mul]
      rw [expand]
      field_simp
      linear_combination ((S.card : ℚ) ^ 2) * hvar
    have hconst : ∀ i ∈ S, f i = (∑ j in S, f j) / S.card := by
      intro i hi
      have h1 := (Finset.sum_eq_zero_iff_of_nonneg
        (fun j _ => sq_nonneg (f j - (∑ k in S, f k) / S.card))).1 key i hi
      have h2 := pow_eq_zero_iff (two_ne_zero) |>.1 h1
      linarith
    have hSf : ∑ i in S, f i = (S.card : ℚ) * ((∑ j in S, f j) / S.card) := by
      rw [mul_div_cancel₀ _ hn.ne.symm]
    have hSfg : ∑ i in S, f i * g i =
        ((∑ j in S, f j) / S.card) * ∑ i in S, g i := by
      rw [Finset.sum_congr rfl fun i hi => by rw [hconst i hi], Finset.mul_sum]
    rw [hSfg]
    nth_rewrite 2 [hSf]
    ring

/-- If the product of the two variance terms of the correlation
denominator is zero, the correlation numerator is zero (the 0/0 case of
the Pearson formula in exact arithmetic). -/
theorem pearsonNum_eq_zero_of_denom_zero (x y : List ℚ) (h : x.length = y.length)
    (hD : pearsonDenomProd x y = 0) : pearsonNum x y = 0 := by
  have hy' : y.sum = ∑ i in Finset.range x.length, y.getD i 0 := by
    rw [list_sum_eq_range_getD, h]
  have hyy' : sumSq y = ∑ i in Finset.range x.length, y.getD i 0 * y.getD i 0 := by
    rw [sumSq_eq_range_getD, h]
  have hcard : ((Finset.range x.length).card : ℚ) = (x.length : ℚ) := by
    simp
  simp only [pearsonDenomProd] at hD
  simp only [pearsonNum]
  rw [list_sum_eq_range_getD x, hy', sumProds_eq_range_getD x y h.le, ← hcard]
  rw [list_sum_eq_range_getD x, hy', sumSq_eq_range_getD x, hyy', ← hcard] at hD
  rcases mul_eq_zero.1 hD with hvx | hvy
  · exact covar_zero_of_var_zero _ _ _ hvx
  · have hswap := covar_zero_of_var_zero (Finset.range x.length)
      (fun i => y.getD i 0) (fun i => x.getD i 0) hvy
    have hc : ∑ i in Finset.range x.length, y.getD i 0 * x.getD i 0 =
        ∑ i in Finset.range x.length, x.getD i 0 * y.getD i 0 :=
      Finset.sum_congr rfl fun i _ => mul_comm _ _
    rw [hc] at hswap
    linarith

/-! ### Claim C1 — NaN normalization of the correlation paths -/

/-- Claim C1 (amended): for equal-length inputs with at least 2 elements
whose denominator variance product is zero, the `pearsonCorrelation`
implementations of the visualization service and the CSV handler return
the number 0 (in exact arithmetic the result is finite whenever that
product is nonzero); the Rank-vs-Peak correlation of the films analysis
lacks the `isNaN` guard and instead returns `NaN` in the same
situation. -/
theorem claim_C1 :
    (∀ x y : List ℚ, x.length = y.length → 2 ≤ x.length →
      pearsonDenomProd x y = 0 →
      VisualizationService.pearsonCorrelation x y = JsNum.num 0 ∧
      CSVHandler.pearsonCorrelation x y = JsNum.num 0) ∧
    (∀ data : List WikipediaHandler.FilmRecord,
      2 ≤ (data.filter fun d => (d.rank != 0) && (d.peak != 0)).length →
      pearsonDenomProd
        ((data.filter fun d => (d.rank != 0) && (d.peak != 0)).map fun d => (d.rank : ℚ))
        ((data.filter fun d => (d.rank != 0) && (d.peak != 0)).map fun d => (d.peak : ℚ)) = 0 →
      WikipediaHandler.calculateRankPeakCorrelation data = JsNum.nan) := by
  constructor
  · intro x y hlen h2 hD
    have e1 : ((x.length : ℚ) * sumProds x y - x.sum * y.sum) = 0 := by
      simpa [pearsonNum] using pearsonNum_eq_zero_of_denom_zero x y hlen hD
    have e2 : (((x.length : ℚ) * sumSq x - x.sum * x.sum) *
        ((x.length : ℚ) * sumSq y - y.sum * y.sum)) = 0 := by
      simpa [pearsonDenomProd] using hD
    constructor
    · simp only [VisualizationService.pearsonCorrelation,
        if_neg (fun hc : x.length ≠ y.length => hc hlen)]
      rw [e1, e2]
      simp [jsDivSqrt, JsNum.isNaN]
    · simp only [CSVHandler.pearsonCorrelation,
        if_neg (by omega : ¬ y.length < x.length)]
      rw [e1, e2]
      simp [jsDivSqrt, JsNum.isNaN]
  · intro data h2 hD
    have hlen : ((data.filter fun d => (d.rank != 0) && (d.peak != 0)).map
          fun d => (d.rank : ℚ)).length =
        ((data.filter fun d => (d.rank != 0) && (d.peak != 0)).map
          fun d => (d.peak : ℚ)).length := by
      simp
    have e1 := pearsonNum_eq_zero_of_denom_zero _ _ hlen hD
    simp only [WikipediaHandler.calculateRankPeakCorrelation,
      if_neg (Nat.not_lt.2 h2)]
    rw [show ((((data.filter fun d => (d.rank != 0) && (d.peak != 0)).map
          fun d => (d.rank : ℚ)).length : ℚ) *
        sumProds ((data.filter fun d => (d.rank != 0) && (d.peak != 0)).map
          fun d => (d.rank : ℚ))
          ((data.filter fun d => (d.rank != 0) && (d.peak != 0)).map
          fun d => (d.peak : ℚ)) -
        ((data.filter fun d => (d.rank != 0) && (d.peak != 0)).map
          fun d => (d.rank : ℚ)).sum *
        ((data.filter fun d => (d.rank != 0) && (d.peak != 0)).map
          fun d => (d.peak : ℚ)).sum) = 0 from by simpa [pearsonNum] using e1,
      show (((((data.filter fun d => (d.rank != 0) && (d.peak != 0)).map
          fun d => (d.rank : ℚ)).length : ℚ) *
        sumSq ((data.filter fun d => (d.rank != 0) && (d.peak != 0)).map
          fun d => (d.rank : ℚ)) -
        ((data.filter fun d => (d.rank != 0) && (d.peak != 0)).map
          fun d => (d.rank : ℚ)).sum *
        ((data.filter fun d => (d.rank != 0) && (d.peak != 0)).map
          fun d => (d.rank : ℚ)).sum) *
        ((((data.filter fun d => (d.rank != 0) && (d.peak != 0)).map
          fun d => (d.rank : ℚ)).length : ℚ) *
        sumSq ((data.filter fun d => (d.rank != 0) && (d.peak != 0)).map
          fun d => (d.peak : ℚ)) -
        ((data.filter fun d => (d.rank != 0) && (d.peak != 0)).map
          fun d => (d.peak : ℚ)).sum *
        ((data.filter fun d => (d.rank != 0) && (d.peak != 0)).map
          fun d => (d.peak : ℚ)).sum)) = 0 from by simpa [pearsonDenomProd] using hD]
    simp [jsDivSqrt, jsRound3, jsMulPos, jsRound]

/-- Witness for claim C1: two equal-length lists of two elements with
constant x (zero variance product), on which both `pearsonCorrelation`
implementations return the number 0; and film records whose extracted
ranks are constant, on which the rank/peak correlation is `NaN`. -/
theorem claim_C1_witness :
    pearsonDenomProd [(1 : ℚ), 1] [1, 2] = 0 ∧
    VisualizationService.pearsonCorrelation [1, 1] [1, 2] = JsNum.num 0 ∧
    CSVHandler.pearsonCorrelation [1, 1] [1, 2] = JsNum.num 0 ∧
    WikipediaHandler.calculateRankPeakCorrelation
      [⟨"A", 2000000000, some 2009, 1, 1⟩, ⟨"B", 1600000000, some 1997, 1, 2⟩] =
      JsNum.nan := by
  have hD : pearsonDenomProd [(1 : ℚ), 1] [1, 2] = 0 := by
    norm_num [pearsonDenomProd, sumSq]
  have h := claim_C1.1 [(1 : ℚ), 1] [1, 2] rfl (by norm_num) hD
  have hfil : ([⟨"A", 2000000000, some 2009, 1, 1⟩,
        ⟨"B", 1600000000, some 1997, 1, 2⟩].filter
          fun d : WikipediaHandler.FilmRecord => (d.rank != 0) && (d.peak != 0)) =
      [⟨"A", 2000000000, some 2009, 1, 1⟩, ⟨"B", 1600000000, some 1997, 1, 2⟩] := by
    decide
  have hD2 : pearsonDenomProd
        (([⟨"A", 2000000000, some 2009, 1, 1⟩,
           ⟨"B", 1600000000, some 1997, 1, 2⟩].filter
            fun d : WikipediaHandler.FilmRecord => (d.rank != 0) && (d.peak != 0)).map
          fun d => (d.rank : ℚ))
        (([⟨"A", 2000000000, some 2009, 1, 1⟩,
           ⟨"B", 1600000000, some 1997, 1, 2⟩].filter
            fun d : WikipediaHandler.FilmRecord => (d.rank != 0) && (d.peak != 0)).map
          fun d => (d.peak : ℚ)) = 0 := by
    rw [hfil]
    norm_num [pearsonDenomProd, sumSq]
  have h2 := claim_C1.2
    [⟨"A", 2000000000, some 2009, 1, 1⟩, ⟨"B", 1600000000, some 1997, 1, 2⟩]
    (by rw [hfil]; norm_num) hD2
  exact ⟨hD, h.1, h.2, h2⟩

/-- Counterexample to claim C1 as stated: the Rank-vs-Peak correlation
path does not normalize the zero-denominator case to 0 — on two film
records with equal ranks it returns `NaN`. -/
theorem claim_C1_counterexample :
    pearsonDenomProd [(1 : ℚ), 1] [1, 2] = 0 ∧
    WikipediaHandler.calculateRankPeakCorrelation
      [⟨"C", 2000000000, some 2009, 1, 1⟩, ⟨"D", 1600000000, some 1997, 1, 2⟩] =
      JsNum.nan ∧
    JsNum.nan ≠ JsNum.num 0 := by
  refine ⟨by norm_num [pearsonDenomProd, sumSq], ?_, by simp⟩
  have : ([⟨"C", 2000000000, some 2009, 1, 1⟩,
      ⟨"D", 1600000000, some 1997, 1, 2⟩].filter
        fun d : WikipediaHandler.FilmRecord => (d.rank != 0) && (d.peak != 0)) =
      [⟨"C", 2000000000, some 2009, 1, 1⟩, ⟨"D", 1600000000, some 1997, 1, 2⟩] := by
    simp [List.filter]
  simp only [WikipediaHandler.calculateRankPeakCorrelation, this]
  norm_num [sumProds, sumSq, jsDivSqrt, jsRound3, jsMulPos, jsRound]

/-! ### Claim C2 — regression on constant-x input -/

theorem list_sum_const_of_all_eq (c : ℚ) (l : List ℚ) (h : ∀ a ∈ l, a = c) :
    l.sum = l.length * c := by
  induction l with
  | nil => simp
  | cons a t ih =>
    simp only [List.sum_cons, List.length_cons]
    rw [h a (List.mem_cons_self a t), ih fun b hb => h b (List.mem_cons_of_mem a hb)]
    push_cast
    ring

theorem sumProds_const_left (c : ℚ) (xs : List ℚ) :
    ∀ ys : List ℚ, xs.length = ys.length → (∀ a ∈ xs, a = c) →
      sumProds xs ys = c * ys.sum := by
  induction xs with
  | nil =>
    intro ys h _
    cases ys with
    | nil => simp [sumProds]
    | cons b u => simp at h
  | cons a t ih =>
    intro ys h hall
    cases ys with
    | nil => simp at h
    | cons b u =>
      rw [show sumProds (a :: t) (b :: u) = a * b + sumProds t u from by simp [sumProds],
        List.sum_cons, ih u (by simpa using h)
          fun x hx => hall x (List.mem_cons_of_mem a hx),
        hall a (List.mem_cons_self a t)]
      ring

theorem sum_map_mul_fst_const (c : ℚ) (data : List (ℚ × ℚ)) (h : ∀ p ∈ data, p.1 = c) :
    (data.map fun p => p.1 * p.2).sum = c * (data.map fun p => p.2).sum := by
  induction data with
  | nil => simp
  | cons d t ih =>
    simp only [List.map_cons, List.sum_cons]
    rw [h d (List.mem_cons_self d t), ih fun p hp => h p (List.mem_cons_of_mem d hp)]
    ring

/-- Claim C2 (amended): on constant-x input the court-data slope function
returns slope 0 (its `isNaN` guard turns the 0/0 division into 0), but the
chart-overlay regression `calculateRegression` has no such guard and
returns `NaN` for both slope and intercept — not 0 and mean(y). -/
theorem claim_C2 :
    (∀ (data : List (ℚ × ℚ)) (c : ℚ), (∀ p ∈ data, p.1 = c) →
      VisualizationService.calculateRegression data = (JsNum.nan, JsNum.nan)) ∧
    (∀ (xs ys : List ℚ) (c : ℚ), xs.length = ys.length → (∀ a ∈ xs, a = c) →
      DuckDBHandler.calculateLinearRegressionSlope xs ys = JsNum.num 0) := by
  constructor
  · intro data c hc
    have hfst : (data.map fun p => p.1).sum = (data.length : ℚ) * c := by
      have := list_sum_const_of_all_eq c (data.map fun p => p.1) (by
        rintro a ha
        obtain ⟨p, hp, rfl⟩ := List.mem_map.1 ha
        exact hc p hp)
      simpa [List.length_map] using this
    have hsq : (data.map fun p => p.1 * p.1).sum = (data.length : ℚ) * (c * c) := by
      have := list_sum_const_of_all_eq (c * c) (data.map fun p => p.1 * p.1) (by
        rintro a ha
        obtain ⟨p, hp, rfl⟩ := List.mem_map.1 ha
        rw [hc p hp])
      simpa [List.length_map] using this
    have hxy := sum_map_mul_fst_const c data hc
    have hN : ((data.length : ℚ) * (data.map fun p => p.1 * p.2).sum -
        (data.map fun p => p.1).sum * (data.map fun p => p.2).sum) = 0 := by
      rw [hxy, hfst]
      ring
    have hD : ((data.length : ℚ) * (data.map fun p => p.1 * p.1).sum -
        (data.map fun p => p.1).sum * (data.map fun p => p.1).sum) = 0 := by
      rw [hsq, hfst]
      ring
    simp only [VisualizationService.calculateRegression]
    rw [hN, hD]
    simp [jsDivQ, VisualizationService.jsInterceptOf]
  · intro xs ys c hlen hconst
    by_cases h2 : xs.length < 2
    · simp [DuckDBHandler.calculateLinearRegressionSlope, Or.inr h2]
    · have hcond : ¬(xs.length ≠ ys.length ∨ xs.length < 2) := by
        rintro (hne | hlt)
        exacts [hne hlen, h2 hlt]
      simp only [DuckDBHandler.calculateLinearRegressionSlope, if_neg hcond]
      have hsum : xs.sum = (xs.length : ℚ) * c := by
        simpa using list_sum_const_of_all_eq c xs hconst
      have hsq : sumSq xs = (xs.length : ℚ) * (c * c) := by
        have := list_sum_const_of_all_eq (c * c) (xs.map fun a => a * a) (by
          rintro a ha
          obtain ⟨b, hb, rfl⟩ := List.mem_map.1 ha
          rw [hconst b hb])
        simpa [sumSq, List.length_map] using this
      have hxy : sumProds xs ys = c * ys.sum := sumProds_const_left c xs ys hlen hconst
      have hN : ((xs.length : ℚ) * sumProds xs ys - xs.sum * ys.sum) = 0 := by
        rw [hxy, hsum]
        ring
      have hD : ((xs.length : ℚ) * sumSq xs - xs.sum * xs.sum) = 0 := by
        rw [hsq, hsum]
        ring
      rw [hN, hD]
      simp [jsDivQ, JsNum.isNaN]

/-- Witness for claim C2 at the spec's own constant-x example
`{(5,1),(5,2),(5,3)}`. -/
theorem claim_C2_witness :
    VisualizationService.calculateRegression [(5, 1), (5, 2), (5, 3)] =
      (JsNum.nan, JsNum.nan) ∧
    DuckDBHandler.calculateLinearRegressionSlope [5, 5, 5] [1, 2, 3] = JsNum.num 0 := by
  constructor
  · exact claim_C2.1 [(5, 1), (5, 2), (5, 3)] 5 (by
      rintro p hp
      simp only [List.mem_cons, List.not_mem_nil, or_false] at hp
      rcases hp with rfl | rfl | rfl <;> rfl)
  · exact claim_C2.2 [5, 5, 5] [1, 2, 3] 5 rfl (by
      rintro a ha
      simp only [List.mem_cons, List.not_mem_nil, or_false] at ha
      rcases ha with rfl | rfl | rfl <;> rfl)

/-- Counterexample to claim C2 as stated: on the spec's constant-x example
the chart-overlay regression returns `(NaN, NaN)`, not slope 0 and
intercept mean(y) = 2. -/
theorem claim_C2_counterexample :
    VisualizationService.calculateRegression [(5, 1), (5, 2), (5, 3)] =
      (JsNum.nan, JsNum.nan) ∧
    (JsNum.nan, JsNum.nan) ≠ (JsNum.num 0, JsNum.num 2) := by
  constructor
  · simp only [VisualizationService.calculateRegression]
    norm_num [jsDivQ, VisualizationService.jsInterceptOf]
  · simp

/-! ### Claims C5, C7, C9 — the cleanFilmsData row filter and fallbacks -/

theorem mkFilmRecord_isSome (n : ℕ) (row : Row) :
    (WikipediaHandler.mkFilmRecord n row).isSome = WikipediaHandler.essentialTruthy row := by
  simp only [WikipediaHandler.mkFilmRecord, WikipediaHandler.essentialTruthy]
  split <;> simp_all

theorem cleanStep_of_some {cleaned : List WikipediaHandler.FilmRecord} {row : Row}
    {r : WikipediaHandler.FilmRecord}
    (h : WikipediaHandler.mkFilmRecord cleaned.length row = some r) :
    WikipediaHandler.cleanStep cleaned row = cleaned ++ [r] := by
  simp [WikipediaHandler.cleanStep, h]

theorem cleanStep_of_none {cleaned : List WikipediaHandler.FilmRecord} {row : Row}
    (h : WikipediaHandler.mkFilmRecord cleaned.length row = none) :
    WikipediaHandler.cleanStep cleaned row = cleaned := by
  simp [WikipediaHandler.cleanStep, h]

theorem cleanFoldl_length (rows : List Row) :
    ∀ acc : List WikipediaHandler.FilmRecord,
      (rows.foldl WikipediaHandler.cleanStep acc).length =
        acc.length + (rows.filter WikipediaHandler.essentialTruthy).length := by
  induction rows with
  | nil => intro acc; simp
  | cons row rest ih =>
    intro acc
    rw [List.foldl_cons, List.filter_cons]
    by_cases h : WikipediaHandler.essentialTruthy row = true
    · have hs : (WikipediaHandler.mkFilmRecord acc.length row).isSome = true := by
        rw [mkFilmRecord_isSome, h]
      obtain ⟨r, hr⟩ := Option.isSome_iff_exists.1 hs
      rw [cleanStep_of_some hr, ih]
      simp [h]
      omega
    · have hs : WikipediaHandler.mkFilmRecord acc.length row = none := by
        cases hm : WikipediaHandler.mkFilmRecord acc.length row with
        | none => rfl
        | some r =>
          exfalso
          apply h
          have h2 := mkFilmRecord_isSome acc.length row
          rw [hm] at h2
          simpa using h2.symm
      rw [cleanStep_of_none hs, ih]
      simp [h]

/-- Claim C5 (amended): a row is emitted exactly when its essential fields
are truthy in the JavaScript sense — the extracted revenue is a nonzero
number and the extracted title is a nonempty string; all other rows are
silently excluded (the record count is exactly the count of rows passing
that test).  In particular a revenue of 0 (or an empty title) causes
exclusion even though the field is non-null. -/
theorem claim_C5 :
    (∀ (n : ℕ) (row : Row),
      (WikipediaHandler.mkFilmRecord n row).isSome = WikipediaHandler.essentialTruthy row) ∧
    (∀ rows : List Row,
      (WikipediaHandler.cleanFilmsData rows).length =
        (rows.filter WikipediaHandler.essentialTruthy).length) :=
  ⟨mkFilmRecord_isSome, fun rows => by
    have h := cleanFoldl_length rows []
    simpa [WikipediaHandler.cleanFilmsData] using h⟩

/-- Counterexample to claim C5 as stated: a row whose essential fields are
both non-null — revenue extracts to the number 0 and the title cell is
"Avatar" — is nevertheless dropped, because the JavaScript truthiness
check `revenueValue && titleValue` treats 0 as missing. -/
theorem claim_C5_counterexample :
    WikipediaHandler.extractRevenue [("Title", "Avatar"), ("Worldwide gross", "$0")] =
      some 0 ∧
    WikipediaHandler.extractTitle [("Title", "Avatar"), ("Worldwide gross", "$0")] =
      some "Avatar" ∧
    WikipediaHandler.cleanFilmsData [[("Title", "Avatar"), ("Worldwide gross", "$0")]] =
      [] := by
  refine ⟨by decide, by decide, by decide⟩

theorem extractRank_eq_none {row : Row}
    (h : ∀ kv ∈ row, WikipediaHandler.keyHitRank kv.1 = false) :
    WikipediaHandler.extractRank row = none := by
  have hfind : (row.find? fun kv => WikipediaHandler.keyHitRank kv.1) = none :=
    List.find?_eq_none.2 fun kv hkv => by simp [h kv hkv]
  simp [WikipediaHandler.extractRank, WikipediaHandler.findKeyVal, hfind]

theorem mkFilmRecord_rank_of_none {n : ℕ} {row : Row} {r : WikipediaHandler.FilmRecord}
    (hnone : WikipediaHandler.extractRank row = none)
    (h : WikipediaHandler.mkFilmRecord n row = some r) : r.rank = n + 1 := by
  simp only [WikipediaHandler.mkFilmRecord] at h
  split at h
  · have hr := Option.some.inj h
    subst hr
    simp [hnone, WikipediaHandler.truthyNum]
  · simp at h

theorem cleanFoldl_rank (rows : List Row)
    (hr : ∀ row ∈ rows, WikipediaHandler.extractRank row = none) :
    ∀ acc : List WikipediaHandler.FilmRecord,
      (∀ i, i < acc.length → (acc.getD i ⟨"", 0, none, 0, 0⟩).rank = i + 1) →
      ∀ i, i < (rows.foldl WikipediaHandler.cleanStep acc).length →
        ((rows.foldl WikipediaHandler.cleanStep acc).getD i ⟨"", 0, none, 0, 0⟩).rank =
          i + 1 := by
  induction rows with
  | nil => intro acc hacc; simpa using hacc
  | cons row rest ih =>
    intro acc hacc
    rw [List.foldl_cons]
    apply ih (fun q hq => hr q (List.mem_cons_of_mem row hq))
    cases hm : WikipediaHandler.mkFilmRecord acc.length row with
    | none =>
      rw [cleanStep_of_none hm]
      exact hacc
    | some r =>
      rw [cleanStep_of_some hm]
      intro i hi
      rw [List.length_append, List.length_cons, List.length_nil] at hi
      by_cases hia : i < acc.length
      · rw [List.getD_append _ _ _ _ hia]
        exact hacc i hia
      · have hieq : i = acc.length := by omega
        subst hieq
        have hgd : (acc ++ [r]).getD acc.length (⟨"", 0, none, 0, 0⟩ :
            WikipediaHandler.FilmRecord) = r := by
          rw [List.getD_eq_getD_get?, List.get?_eq_getElem?, List.getElem?_concat_length]
          rfl
        rw [hgd]
        exact mkFilmRecord_rank_of_none (hr row (List.mem_cons_self row rest)) hm

/-- Claim C7: when no header of any row is rank-hinted (contains "rank" or
"position" case-insensitively), every emitted record's rank equals its
1-based insertion order among the retained records. -/
theorem claim_C7 (rows : List Row)
    (hnorank : ∀ row ∈ rows, ∀ kv ∈ row, WikipediaHandler.keyHitRank kv.1 = false) :
    ∀ i, i < (WikipediaHandler.cleanFilmsData rows).length →
      ((WikipediaHandler.cleanFilmsData rows).getD i ⟨"", 0, none, 0, 0⟩).rank = i + 1 := by
  have h := cleanFoldl_rank rows
    (fun row hrow => extractRank_eq_none (hnorank row hrow)) []
    (by intro i hi; simp at hi)
  simpa [WikipediaHandler.cleanFilmsData] using h

/-- Witness for claim C7: a two-row table whose headers are "Film" and
"Worldwide gross" (no rank hint); the second retained record has rank 2. -/
theorem claim_C7_witness :
    (∀ row ∈ [[("Film", "A"), ("Worldwide gross", "$2,000")],
              [("Film", "B"), ("Worldwide gross", "$3,000")]],
      ∀ kv ∈ row, WikipediaHandler.keyHitRank kv.1 = false) ∧
    ((WikipediaHandler.cleanFilmsData
        [[("Film", "A"), ("Worldwide gross", "$2,000")],
         [("Film", "B"), ("Worldwide gross", "$3,000")]]).getD 1
      ⟨"", 0, none, 0, 0⟩).rank = 2 := by
  refine ⟨by decide, ?_⟩
  exact claim_C7
    [[("Film", "A"), ("Worldwide gross", "$2,000")],
     [("Film", "B"), ("Worldwide gross", "$3,000")]]
    (by decide) 1 (by decide)

/-- Claim C9: when a retained row has no usable (truthy) peak value, the
emitted record's peak falls back first to the extracted rank value, and
only when the rank is also untruthy to the 1-based insertion order
`n + 1` (here `n` is the number of previously retained records) — so peak
silently duplicates rank whenever the peak cell fails numeric
extraction. -/
theorem claim_C9 (n : ℕ) (row : Row) (r : WikipediaHandler.FilmRecord)
    (hmk : WikipediaHandler.mkFilmRecord n row = some r)
    (hpeak : WikipediaHandler.truthyNum (WikipediaHandler.extractPeak row) = false) :
    (WikipediaHandler.truthyNum (WikipediaHandler.extractRank row) = true →
      r.peak = r.rank ∧ r.rank = (WikipediaHandler.extractRank row).getD 0) ∧
    (WikipediaHandler.truthyNum (WikipediaHandler.extractRank row) = false →
      r.rank = n + 1 ∧ r.peak = n + 1) := by
  simp only [WikipediaHandler.mkFilmRecord] at hmk
  split at hmk
  · have hr := Option.some.inj hmk
    subst hr
    constructor
    · intro hrank
      refine ⟨by simp [hpeak, hrank], by simp [hrank]⟩
    · intro hrank
      refine ⟨by simp [hrank], by simp [hpeak, hrank]⟩
  · simp at hmk

/-- Witness for claim C9: a row WITH a peak column whose cell "TBD" fails
numeric extraction; the emitted record's peak silently duplicates the
extracted rank 2. -/
theorem claim_C9_witness :
    WikipediaHandler.mkFilmRecord 0
        [("Rank", "2"), ("Film", "A"), ("Worldwide gross", "$1,000"), ("Peak", "TBD")] =
      some ⟨"2", 1000, none, 2, 2⟩ ∧
    WikipediaHandler.truthyNum (WikipediaHandler.extractPeak
        [("Rank", "2"), ("Film", "A"), ("Worldwide gross", "$1,000"), ("Peak", "TBD")]) =
      false ∧
    (⟨"2", 1000, none, 2, 2⟩ : WikipediaHandler.FilmRecord).peak =
      (⟨"2", 1000, none, 2, 2⟩ : WikipediaHandler.FilmRecord).rank := by
  refine ⟨by decide, by decide, ?_⟩
  exact ((claim_C9 0
    [("Rank", "2"), ("Film", "A"), ("Worldwide gross", "$1,000"), ("Peak", "TBD")]
    ⟨"2", 1000, none, 2, 2⟩ (by decide) (by decide)).1 (by decide)).1

/-! ### Claim C10 — earliest $1.5bn film on year ties -/

theorem foldl_pickEarlier_mem (l : List WikipediaHandler.FilmRecord) :
    ∀ a, l.foldl WikipediaHandler.pickEarlier a ∈ a :: l := by
  induction l with
  | nil => intro a; simp
  | cons c t ih =>
    intro a
    rw [List.foldl_cons]
    have h := ih (WikipediaHandler.pickEarlier a c)
    have hp : WikipediaHandler.pickEarlier a c = a ∨
        WikipediaHandler.pickEarlier a c = c := by
      simp only [WikipediaHandler.pickEarlier]
      split
      · exact Or.inl rfl
      · exact Or.inr rfl
    rcases List.mem_cons.1 h with he | ht
    · rcases hp with h1 | h1 <;> rw [he, h1] <;> simp
    · simp [List.mem_cons, ht]

theorem foldl_pickEarlier_keep (f : WikipediaHandler.FilmRecord) (l : List WikipediaHandler.FilmRecord)
    (hl : ∀ g ∈ l, WikipediaHandler.yearVal f < WikipediaHandler.yearVal g) :
    l.foldl WikipediaHandler.pickEarlier f = f := by
  induction l with
  | nil => simp
  | cons c t ih =>
    rw [List.foldl_cons]
    have hc : WikipediaHandler.pickEarlier f c = f := by
      simp only [WikipediaHandler.pickEarlier]
      rw [if_pos (hl c (List.mem_cons_self c t))]
    rw [hc]
    exact ih fun g hg => hl g (List.mem_cons_of_mem c hg)

/-- Claim C10 (amended): when the record list decomposes as
`pre ++ f :: post` with `f` passing the 1.5bn/year filter, `f`'s year
minimal among all filtered records, and every filtered record AFTER `f`
having a strictly larger year (that is, `f` is the LAST record attaining
the earliest year), the answer is `f`, formatted "title (year)".  On year
ties the selection keeps the newcomer, so the last — not the first — such
film in record order is returned. -/
theorem claim_C10 (pre post : List WikipediaHandler.FilmRecord)
    (f : WikipediaHandler.FilmRecord)
    (hf : WikipediaHandler.overOneAndAHalfBn f = true)
    (hmin : ∀ g ∈ (pre ++ f :: post).filter WikipediaHandler.overOneAndAHalfBn,
      WikipediaHandler.yearVal f ≤ WikipediaHandler.yearVal g)
    (hpost : ∀ g ∈ post, WikipediaHandler.overOneAndAHalfBn g = true →
      WikipediaHandler.yearVal f < WikipediaHandler.yearVal g) :
    WikipediaHandler.findEarliest1_5BillionFilm (pre ++ f :: post) =
      f.title ++ " (" ++ toString (WikipediaHandler.yearVal f) ++ ")" := by
  have hfeq : (pre ++ f :: post).filter WikipediaHandler.overOneAndAHalfBn =
      pre.filter WikipediaHandler.overOneAndAHalfBn ++
        f :: post.filter WikipediaHandler.overOneAndAHalfBn := by
    rw [List.filter_append, List.filter_cons, if_pos hf]
  have hpost' : ∀ g ∈ post.filter WikipediaHandler.overOneAndAHalfBn,
      WikipediaHandler.yearVal f < WikipediaHandler.yearVal g := by
    intro g hg
    have := List.mem_filter.1 hg
    exact hpost g this.1 this.2
  simp only [WikipediaHandler.findEarliest1_5BillionFilm, hfeq]
  cases hp : pre.filter WikipediaHandler.overOneAndAHalfBn with
  | nil =>
    simp only [List.nil_append]
    rw [foldl_pickEarlier_keep f _ hpost']
  | cons h0 t0 =>
    simp only [List.cons_append]
    rw [List.foldl_append]
    have hmem := foldl_pickEarlier_mem t0 h0
    have hacc : WikipediaHandler.yearVal f ≤
        WikipediaHandler.yearVal (t0.foldl WikipediaHandler.pickEarlier h0) := by
      apply hmin
      rw [hfeq, hp]
      exact List.mem_append_left _ hmem
    rw [List.foldl_cons]
    have hpick : WikipediaHandler.pickEarlier
        (t0.foldl WikipediaHandler.pickEarlier h0) f = f := by
      simp only [WikipediaHandler.pickEarlier]
      rw [if_neg (not_lt.2 hacc)]
    rw [hpick, foldl_pickEarlier_keep f _ hpost']

/-- Witness for claim C10: three films over 1.5bn, the first two sharing
the earliest year 1997; the reducer keeps the later of the tied pair, so
the answer is film "B". -/
theorem claim_C10_witness :
    WikipediaHandler.findEarliest1_5BillionFilm
        ([⟨"A", 2000000000, some 1997, 1, 1⟩] ++
          ⟨"B", 1600000000, some 1997, 2, 2⟩ :: [⟨"C", 1700000000, some 2005, 3, 3⟩]) =
      "B (1997)" := by
  rw [claim_C10 [⟨"A", 2000000000, some 1997, 1, 1⟩]
    [⟨"C", 1700000000, some 2005, 3, 3⟩] ⟨"B", 1600000000, some 1997, 2, 2⟩
    (by decide) (by decide) (by decide)]
  decide

/-- Counterexample to claim C10 as stated: films "A" and "B" both over
$1.5bn share the earliest year 1997; the selection keeps the newcomer on
the tie, so the LAST such film "B" is returned, not the first film "A". -/
theorem claim_C10_counterexample :
    WikipediaHandler.findEarliest1_5BillionFilm
        [⟨"A", 2000000000, some 1997, 1, 1⟩, ⟨"B", 1600000000, some 1997, 2, 2⟩] =
      "B (1997)" ∧
    ("B (1997)" : String) ≠ "A (1997)" := by
  refine ⟨by decide, by decide⟩

/-! ### Claim C6 — descriptive statistics -/

/-- Claim C6: for every nonempty numeric column, the statistics record
reports the count, mean = sum/count, the median as the element at index
⌊count/2⌋ of the values sorted ascending (the upper-middle element for
even counts, not the average of the two middles), and the population
standard deviation (square root of the mean squared deviation, divisor n);
on [1,2,3,4] this gives count 4, mean 5/2, median 3, min 1, max 4 and
standard deviation √(5/4). -/
theorem claim_C6 :
    (∀ (values s : List ℚ) (st : CSVHandler.ColumnStats),
      CSVHandler.columnStats values = some st →
      s.Perm values → s.Sorted (· ≤ ·) →
      st.count = values.length ∧
      st.mean = values.sum / (values.length : ℚ) ∧
      st.median = s.getD (values.length / 2) 0 ∧
      st.std_dev = jsSqrt
        (((values.map fun v => (v - values.sum / (values.length : ℚ)) ^ 2).sum) /
          (values.length : ℚ))) ∧
    CSVHandler.columnStats [1, 2, 3, 4] =
      some ⟨4, 5 / 2, 3, 1, 4, JsNum.divSqrt (5 / 4) (5 / 4)⟩ := by
  constructor
  · intro values s st hst hperm hsort
    have hy : ¬ values.length = 0 := by
      intro h0
      simp [CSVHandler.columnStats, h0] at hst
    simp only [CSVHandler.columnStats, if_neg hy] at hst
    have hrec := Option.some.inj hst
    subst hrec
    have hps : (List.insertionSort (· ≤ ·) values).Perm values :=
      List.perm_insertionSort _ _
    have hlen : (List.insertionSort (· ≤ ·) values).length = values.length :=
      hps.length_eq
    have hsum : (List.insertionSort (· ≤ ·) values).sum = values.sum := hps.sum_eq
    have hseq : s = List.insertionSort (· ≤ ·) values :=
      List.eq_of_perm_of_sorted (hperm.trans hps.symm) hsort
        (List.sorted_insertionSort _ _)
    refine ⟨by simp [hlen], by simp [hsum, hlen], by simp [hseq, hlen], ?_⟩
    have hg : ((List.insertionSort (· ≤ ·) values).map
          fun v => (v - values.sum / (values.length : ℚ)) ^ 2).sum =
        (values.map fun v => (v - values.sum / (values.length : ℚ)) ^ 2).sum :=
      (hps.map _).sum_eq
    simp only [CSVHandler.calculateStdDev, hsum, hlen]
    rw [hg]
  · norm_num [CSVHandler.columnStats, List.insertionSort, List.orderedInsert,
      CSVHandler.calculateStdDev, CSVHandler.jsMinList, CSVHandler.jsMaxList,
      jsSqrt, min_def, max_def]

/-- Witness for claim C6 at the spec's example [1,2,3,4]: the statistics
record holds the claimed values and its median is the upper-middle element
of the sorted values. -/
theorem claim_C6_witness :
    CSVHandler.columnStats [1, 2, 3, 4] =
      some ⟨4, 5 / 2, 3, 1, 4, JsNum.divSqrt (5 / 4) (5 / 4)⟩ ∧
    (⟨4, 5 / 2, 3, 1, 4, JsNum.divSqrt (5 / 4) (5 / 4)⟩ : CSVHandler.ColumnStats).median =
      [(1 : ℚ), 2, 3, 4].getD ([(1 : ℚ), 2, 3, 4].length / 2) 0 := by
  have h := claim_C6.1 [1, 2, 3, 4] [1, 2, 3, 4]
    ⟨4, 5 / 2, 3, 1, 4, JsNum.divSqrt (5 / 4) (5 / 4)⟩ claim_C6.2 (List.Perm.refl _)
    (by norm_num [List.sorted_cons])
  exact ⟨claim_C6.2, h.2.2.1⟩
